import Mathlib

/-!
Verification of `ReportEngine/utils/dependency_check.py` (BettaFish).

The Python module is a startup health check for the native Pango stack
needed by PDF export.  We give a shallow embedding: the process
environment, the filesystem, the dynamic loader and the outcome of the
`weasyprint` import are modelled by a `World` record of total oracle
functions (Python's `Path.exists` / `Path.is_dir` swallow `OSError`, so
they are total); the one genuinely fallible primitive the code guards,
`os.add_dll_directory`, is modelled as fallible and the guard is part of
the embedding.  Raised exceptions are modelled with `Except PyExc`.
Python string truthiness, `str.split`, `str.lower` (ASCII range, which
covers every keyword the code tests), f-string `{x:<n}` padding and
slicing are translated operation by operation.
-/

/-- Kinds of exception the try-block of `check_pango_available` can raise,
mirroring the `except` clauses of the source: `OSError`, `ImportError`,
and any other `Exception`, each carrying its `str(e)` text. -/
inductive PyExc where
  | osError (msg : String)
  | importError (msg : String)
  | otherExc (msg : String)
deriving DecidableEq, Repr

/-- The ambient state the module reads and mutates.  Filesystem and
loader queries are oracles fixed by the world; `dllDirs` records
directories registered through `os.add_dll_directory`; `loadOutcome`
is the result of the try-body (`import weasyprint` plus
`pango.pango_version()`): `none` when it succeeds, `some e` when it
raises `e`. -/
structure World where
  /-- `platform.system()` -/
  system : String
  /-- `os.environ` -/
  env : String → Option String
  /-- `Path(s).exists()` (total: Python swallows `OSError` here) -/
  pathExists : String → Bool
  /-- `Path(s).is_dir()` -/
  pathIsDir : String → Bool
  /-- `str(Path(s).resolve())` -/
  resolve : String → String
  /-- `Path(s).name.lower() == "bin"` -/
  nameIsBin : String → Bool
  /-- `str(Path(a) / b)` -/
  child : String → String → String
  /-- `[str(c) for c in Path(root).glob("GTK*")]` -/
  globGTK : String → List String
  /-- `bool(any(Path(p).glob("pango*-1.0-*.dll")))` -/
  hasPangoGlob : String → Bool
  /-- `hasattr(os, "add_dll_directory")` -/
  hasAddDllDirectory : Bool
  /-- whether `os.add_dll_directory(p)` succeeds (otherwise it raises) -/
  addDllOk : String → Bool
  /-- directories registered with the native loader so far -/
  dllDirs : List String
  /-- `ctypes.util.find_library` -/
  findLibrary : String → Option String
  /-- outcome of the guarded import / version call -/
  loadOutcome : Option PyExc

/-- `os.environ[name] = v`. -/
def setEnv (w : World) (name v : String) : World :=
  { w with env := fun k => if k = name then some v else w.env k }

/-- Python membership test `sub in s` on strings: the character sequence
of `sub` occurs contiguously in that of `s`. -/
def pyIn (sub s : String) : Bool :=
  decide (sub.data <:+: s.data)

/-- Python f-string padding `f"{s:<n}"`: left-justify `s` in a field of
minimum width `n` (measured in code points), filling with spaces. -/
def padTo (s : String) (n : Nat) : String :=
  s ++ String.mk (List.replicate (n - s.length) (Char.ofNat 32))

/-- Python truthiness of an optional string (`None` and `""` are falsy). -/
def strTruthy : Option String → Bool
  | none => false
  | some s => s ≠ ""

/-- Helper for `pySplit`: walk the character list, cutting at each
separator occurrence; `acc` holds the current part reversed. -/
def splitCharAux (sep : Char) : List Char → List Char → List (List Char)
  | [], acc => [acc.reverse]
  | c :: cs, acc =>
    if c = sep then acc.reverse :: splitCharAux sep cs []
    else splitCharAux sep cs (c :: acc)

/-- Python `s.split(sep)` for a one-character separator (the only form
the source uses: `";"`, `":"` and `os.pathsep`): cuts at every
occurrence, yielding `n + 1` parts for `n` occurrences, so
`"".split(sep) == [""]`. -/
def pySplit (s : String) (sep : Char) : List String :=
  (splitCharAux sep s.data []).map (fun l => String.mk l)

/-- The per-platform `targets` table of `_probe_native_libs`: symbolic
key paired with the acceptable `find_library` base names. -/
def pangoTargets (system : String) : List (String × List String) :=
  if system = "Windows" then
    [("pango", ["pango-1.0-0"]),
     ("gobject", ["gobject-2.0-0"]),
     ("gdk-pixbuf", ["gdk_pixbuf-2.0-0"]),
     ("cairo", ["cairo-2"])]
  else
    [("pango", ["pango-1.0"]),
     ("gobject", ["gobject-2.0"]),
     ("gdk-pixbuf", ["gdk_pixbuf-2.0"]),
     ("cairo", ["cairo", "cairo-2"])]

/-- Truthiness of one `ctypes_util.find_library(v)` call: found and the
returned path is a non-empty string. -/
def truthyFind (w : World) (v : String) : Bool :=
  strTruthy (w.findLibrary v)

/-- The `for key, variants in targets` loop of `_probe_native_libs`,
appending `key` to `missing` when no variant resolves. -/
def probeMissing (w : World) : List (String × List String) → List String
  | [] => []
  | (key, variants) :: rest =>
    if variants.any (truthyFind w) then probeMissing w rest
    else key :: probeMissing w rest

/-- `_probe_native_libs()`: the ordered list of symbolic keys whose
library-name variants all fail to resolve. -/
def _probe_native_libs (w : World) : List String :=
  probeMissing w (pangoTargets w.system)

/-- The inner helper `_add_candidate` of `_ensure_windows_gtk_paths`,
applied to a value already known truthy (a `Path` argument, or a
non-empty string).  State is the pair `(seen, candidates)`; `seen`
holds `str(p.resolve()).lower()` keys.  When the argument is itself a
`bin` directory it is recorded directly; otherwise both it and its
`bin` child are tried in order. -/
def _add_candidate_path (w : World) (s : String)
    (st : List String × List String) : List String × List String :=
  if w.pathIsDir s = true ∧ w.nameIsBin s = true then
    let key := (w.resolve s).toLower
    if key ∈ st.1 then st else (st.1 ++ [key], st.2 ++ [s])
  else
    [s, w.child s "bin"].foldl
      (fun acc maybe =>
        let key := (w.resolve maybe).toLower
        if w.pathExists maybe = true ∧ key ∉ acc.1 then
          (acc.1 ++ [key], acc.2 ++ [maybe])
        else acc)
      st

/-- `_add_candidate` on an `os.environ.get` result: `None` and the empty
string are falsy and ignored. -/
def _add_candidate (w : World) (o : Option String)
    (st : List String × List String) : List String × List String :=
  match o with
  | none => st
  | some s => if s = "" then st else _add_candidate_path w s st

/-- The environment variables consulted first, in source order. -/
def gtkEnvVars : List String :=
  ["GTK3_RUNTIME_PATH", "GTK_RUNTIME_PATH", "GTK_BIN_PATH",
   "GTK_BIN_DIR", "GTK_PATH"]

/-- `os.add_dll_directory(p)`: registers `p` with the loader or raises. -/
def os_add_dll_directory (w : World) (p : String) : Except PyExc World :=
  if w.addDllOk p = true then .ok { w with dllDirs := w.dllDirs ++ [p] }
  else .error (.osError ("add_dll_directory failed: " ++ p))

/-- The `try: os.add_dll_directory ... except Exception: pass` step of the
acceptance loop: registration is attempted only when the attribute
exists, and a failure is swallowed, leaving the world unchanged. -/
def afterAddDll (w : World) (path : String) : World :=
  if w.hasAddDllDirectory then
    match os_add_dll_directory w path with
    | .ok w2 => w2
    | .error _ => w
  else w

/-- Body of the acceptance loop once a candidate passed both checks:
best-effort loader registration, then prepend the path to `PATH` unless
it is already one of its `";"`-separated entries, and return it. -/
def acceptOne (w : World) (path : String) : Option String × World :=
  let w1 := afterAddDll w path
  let current := (w1.env "PATH").getD ""
  if path ∈ pySplit current ';' then (some path, w1)
  else (some path, setEnv w1 "PATH" (path ++ ";" ++ current))

/-- The final `for path in candidates` loop of `_ensure_windows_gtk_paths`:
skip candidates that do not exist or show no pango DLL; accept the
first remaining one. -/
def acceptCandidates (w : World) : List String → Except PyExc (Option String × World)
  | [] => .ok (none, w)
  | path :: rest =>
    if w.pathExists path = false then acceptCandidates w rest
    else if w.hasPangoGlob path = false ∧
        w.pathExists (w.child path "pango-1.0-0.dll") = false then
      acceptCandidates w rest
    else .ok (acceptOne w path)

/-- `_ensure_windows_gtk_paths()`: gather candidate GTK runtime
directories from override variables, conventional install locations,
drive-root scans, a `GTK*` glob of the Program Files roots and
GTK/pango-flavoured `PATH` entries, then accept the first one holding a
pango DLL.  The Python defaults are raw strings, so they contain a
doubled backslash verbatim. -/
def _ensure_windows_gtk_paths (w : World) : Except PyExc (Option String × World) :=
  if w.system ≠ "Windows" then .ok (none, w)
  else
    let st1 := gtkEnvVars.foldl (fun st v => _add_candidate w (w.env v) st) ([], [])
    let program_files := (w.env "ProgramFiles").getD "C:\\\\Program Files"
    let program_files_x86 := (w.env "ProgramFiles(x86)").getD "C:\\\\Program Files (x86)"
    let dd0 := [w.child program_files "GTK3-Runtime Win64",
                w.child program_files_x86 "GTK3-Runtime Win64",
                w.child program_files "GTK3-Runtime Win32",
                w.child program_files_x86 "GTK3-Runtime Win32",
                w.child program_files "GTK3-Runtime",
                w.child program_files_x86 "GTK3-Runtime"]
    let dd1 := ["C", "D", "E", "F"].foldl (fun acc drive =>
        let root := drive ++ ":/"
        ["GTK3-Runtime Win64", "GTK3-Runtime Win32", "GTK3-Runtime"].foldl
          (fun acc name =>
            acc ++ [w.child root name, w.child (w.child root "DevelopSoftware") name])
          acc) dd0
    let dd2 := [program_files, program_files_x86].foldl (fun acc root =>
        if w.pathExists root = true then acc ++ w.globGTK root else acc) dd1
    let st2 := dd2.foldl (fun st d => _add_candidate_path w d st) st1
    let path_entries := pySplit ((w.env "PATH").getD "") ';'
    let st3 := path_entries.foldl (fun st entry =>
        if entry = "" then st
        else if pyIn "gtk" entry.toLower || pyIn "pango" entry.toLower then
          _add_candidate_path w entry st
        else st) st2
    acceptCandidates w st3.2

/-- `prepare_pango_environment()`: Windows delegates to the GTK path
search; macOS prepends the Homebrew and Intel library directories to
`DYLD_LIBRARY_PATH` when present and not already listed; every other
platform is a no-op returning `None`. -/
def prepare_pango_environment (w : World) : Except PyExc (Option String × World) :=
  if w.system = "Windows" then _ensure_windows_gtk_paths w
  else if w.system = "Darwin" then
    let candidates := ["/opt/homebrew/lib", "/usr/local/lib"]
    let current := (w.env "DYLD_LIBRARY_PATH").getD ""
    let added := candidates.filter
      (fun c => w.pathExists c && !(decide (c ∈ pySplit current ':')))
    if added = [] then .ok (none, w)
    else
      let v := String.intercalate ":" (added ++ (if current ≠ "" then [current] else []))
      .ok (some v, setEnv w "DYLD_LIBRARY_PATH" v)
  else .ok (none, w)

/-- `_get_platform_specific_instructions()`: the per-platform install
guidance block (verbatim from the source, including its spacing). -/
def _get_platform_specific_instructions (system : String) : String :=
  if system = "Darwin" then
    "║  🍎 macOS 系统解决方案：                                       ║\n" ++
    "║                                                                ║\n" ++
    "║  1. 安装系统依赖：                                             ║\n" ++
    "║     brew install pango gdk-pixbuf libffi                       ║\n" ++
    "║                                                                ║\n" ++
    "║  2. 设置环境变量（重要！）：                                   ║\n" ++
    "║     Apple Silicon: export DYLD_LIBRARY_PATH=/opt/homebrew/lib:$DYLD_LIBRARY_PATH ║\n" ++
    "║     Intel Mac:   export DYLD_LIBRARY_PATH=/usr/local/lib:$DYLD_LIBRARY_PATH     ║\n" ++
    "║                                                                ║\n" ++
    "║  3. 永久生效（推荐）：                                         ║\n" ++
    "║     echo \x27export DYLD_LIBRARY_PATH=/opt/homebrew/lib:$DYLD_LIBRARY_PATH\x27 >> ~/.zshrc ║\n" ++
    "║     或 echo \x27export DYLD_LIBRARY_PATH=/usr/local/lib:$DYLD_LIBRARY_PATH\x27 >> ~/.zshrc ║\n" ++
    "║     source ~/.zshrc                                            ║\n"
  else if system = "Linux" then
    "║  🐧 Linux 系统解决方案：                                       ║\n" ++
    "║                                                                ║\n" ++
    "║  Ubuntu/Debian:                                                ║\n" ++
    "║    sudo apt-get install libpango-1.0-0 libpangoft2-1.0-0 \\    ║\n" ++
    "║                         libgdk-pixbuf2.0-0 libffi-dev libcairo2 ║\n" ++
    "║                                                                ║\n" ++
    "║  CentOS/RHEL:                                                  ║\n" ++
    "║    sudo yum install pango gdk-pixbuf2 libffi-devel cairo       ║\n" ++
    "║                                                                ║\n" ++
    "║  若仍提示缺库：export LD_LIBRARY_PATH=/usr/local/lib:$LD_LIBRARY_PATH ║\n" ++
    "║                 sudo ldconfig                                  ║\n"
  else if system = "Windows" then
    "║  🪟 Windows 系统解决方案：                                     ║\n" ++
    "║                                                                ║\n" ++
    "║  1. 安装 GTK3 Runtime：                                        ║\n" ++
    "║     https://github.com/tschoonj/GTK-for-Windows-Runtime-Environment-Installer/releases ║\n" ++
    "║                                                                ║\n" ++
    "║  2. 将 GTK 安装目录下的 bin 加入 PATH（需新开终端）：         ║\n" ++
    "║     set PATH=C:\\Program Files\\GTK3-Runtime Win64\\bin;%PATH%  ║\n" ++
    "║     （若自定义路径，请替换为实际安装路径）                     ║\n" ++
    "║                                                                ║\n" ++
    "║  3. 验证：在新终端运行                                         ║\n" ++
    "║     python -m ReportEngine.utils.dependency_check              ║\n" ++
    "║     看到 ✓ 提示即表示 PDF 导出可用                             ║\n"
  else
    "║  请查看 README.md 了解您系统的安装方法                        ║\n"

/-- Success message of `check_pango_available`. -/
def pangoOkMessage : String :=
  "✓ Pango 依赖检测通过，PDF 导出功能可用"

/-- The `windows_hint` line of the `OSError` handler: on Windows, shows
the path-preparation result (or a placeholder when it was falsy),
truncated to keep the box width, left-padded to 38 columns. -/
def windowsHint (system : String) (added_path : Option String) : String :=
  if system = "Windows" then
    let pd0 := if strTruthy added_path then added_path.getD "" else "未找到默认路径"
    let pd := if pd0.length > 38 then pd0.take 35 ++ "..." else pd0
    "║  已尝试自动添加 GTK 路径: " ++ padTo pd 38 ++ "║\n"
  else ""

/-- The `arch_note` line (Windows only). -/
def archNote (system : String) : String :=
  if system = "Windows" then
    "║  🔍 若已安装仍报错：确认 Python/GTK 位数一致，重开终端        ║\n"
  else ""

/-- The `missing_note` line, built only when the missing-library list is
truthy (non-empty). -/
def missingNote (missing_native : List String) : String :=
  if missing_native = [] then ""
  else "║  未识别到的依赖: " ++ padTo (String.intercalate ", " missing_native) 46 ++ "║\n"

/-- Top of the boxed diagnostic (first five literal lines); the border
is the `╔` corner, 64 `═` characters (code point 9552), `╗` and a
newline, exactly as in the source literal. -/
def boxedTop : String :=
  "╔" ++ String.mk (List.replicate 64 (Char.ofNat 9552)) ++ "╗\n" ++
  "║  ⚠️  PDF 导出依赖缺失                                          ║\n" ++
  "║                                                                ║\n" ++
  "║  📄 PDF 导出功能将不可用（其他功能不受影响）                  ║\n" ++
  "║                                                                ║\n"

/-- Bottom of the boxed diagnostic (last three literal lines); the
closing border is `╚`, 64 `═` characters and `╝`. -/
def boxedBottom : String :=
  "║                                                                ║\n" ++
  "║  📖 完整文档：根目录 README.md ‘源码启动’的第二步            ║\n" ++
  "╚" ++ String.mk (List.replicate 64 (Char.ofNat 9552)) ++ "╝"

/-- The handler branch test: the lower-cased `OSError` text mentions the
pango / gobject / gdk library families. -/
def recognizedOSError (error_msg : String) : Bool :=
  pyIn "gobject" error_msg.toLower || pyIn "pango" error_msg.toLower ||
    pyIn "gdk" error_msg.toLower

/-- The full boxed diagnostic returned for a recognized loader error. -/
def fullBoxedMessage (system : String) (added_path : Option String)
    (missing_native : List String) : String :=
  boxedTop ++ windowsHint system added_path ++ archNote system ++
    missingNote missing_native ++ _get_platform_specific_instructions system ++
    boxedBottom

/-- The single-line message returned for an unrecognized loader error. -/
def shortLoadFailMessage (missing_native : List String) (error_msg : String) : String :=
  "⚠ PDF 依赖加载失败: " ++ error_msg ++ "；缺失/未识别: " ++
    (if missing_native = [] then "未知" else String.intercalate ", " missing_native)

/-- The `except OSError` handler of `check_pango_available`. -/
def handleOSError (system : String) (added_path : Option String)
    (missing_native : List String) (error_msg : String) : Bool × String :=
  if recognizedOSError error_msg then
    (false, fullBoxedMessage system added_path missing_native)
  else
    (false, shortLoadFailMessage missing_native error_msg)

/-- The `except ImportError` handler message. -/
def weasyprintMissingMessage : String :=
  "⚠ WeasyPrint 未安装\n" ++ "解决方法: pip install weasyprint"

/-- The `except Exception` handler message. -/
def genericFailMessage (e : String) : String :=
  "⚠ PDF 依赖检测失败: " ++ e

/-- `check_pango_available()`: prepare paths, probe native libraries,
then run the guarded load attempt; the world's `loadOutcome` is the
try-body result and each raised kind is routed to the matching
`except` clause.  An exception escaping the function would surface as
`.error`. -/
def check_pango_available (w : World) : Except PyExc (Bool × String) :=
  match prepare_pango_environment w with
  | .error e => .error e
  | .ok (added_path, w1) =>
    let missing_native := _probe_native_libs w1
    match w1.loadOutcome with
    | none => .ok (true, pangoOkMessage)
    | some (.osError e) => .ok (handleOSError w1.system added_path missing_native e)
    | some (.importError _) => .ok (false, weasyprintMissingMessage)
    | some (.otherExc e) => .ok (false, genericFailMessage e)

/-- A minimal concrete world: Linux, empty environment, nothing on the
filesystem, no library resolving, and a successful load attempt. -/
def baseWorld : World where
  system := "Linux"
  env := fun _ => none
  pathExists := fun _ => false
  pathIsDir := fun _ => false
  resolve := fun s => s
  nameIsBin := fun _ => false
  child := fun a b => a ++ "/" ++ b
  globGTK := fun _ => []
  hasPangoGlob := fun _ => false
  hasAddDllDirectory := false
  addDllOk := fun _ => false
  dllDirs := []
  findLibrary := fun _ => none
  loadOutcome := none

/-- World where only the cairo variants resolve. -/
def wProbe : World :=
  { baseWorld with
      findLibrary := fun v => if v = "cairo" then some "/usr/lib/libcairo.so.2" else none }

/-- World whose load attempt raises an `OSError` mentioning pango. -/
def wOsErr : World :=
  { baseWorld with loadOutcome := some (.osError "cannot load library pango-1.0-0") }

/-- World whose load attempt raises an `ImportError`. -/
def wImpErr : World :=
  { baseWorld with loadOutcome := some (.importError "No module named weasyprint") }

/-- World whose load attempt raises some other exception. -/
def wOther : World :=
  { baseWorld with loadOutcome := some (.otherExc "boom") }

/-- macOS world where only `/opt/homebrew/lib` exists and
`DYLD_LIBRARY_PATH` holds an unrelated entry. -/
def wDarwin : World :=
  { baseWorld with
      system := "Darwin"
      pathExists := fun s => s == "/opt/homebrew/lib"
      env := fun k => if k = "DYLD_LIBRARY_PATH" then some "/foo" else none }

/-- macOS world where only `/opt/homebrew/lib` exists and
`DYLD_LIBRARY_PATH` is unset. -/
def wDarwinEmptyEnv : World :=
  { baseWorld with
      system := "Darwin"
      pathExists := fun s => s == "/opt/homebrew/lib" }

/-- Windows world whose override variable points at an existing GTK `bin`
directory holding a pango DLL. -/
def wWin : World :=
  { baseWorld with
      system := "Windows"
      env := fun k => if k = "GTK3_RUNTIME_PATH" then some "C:\\gtk\\bin" else none
      pathIsDir := fun s => s == "C:\\gtk\\bin"
      nameIsBin := fun s => s == "C:\\gtk\\bin"
      pathExists := fun s => s == "C:\\gtk\\bin"
      hasPangoGlob := fun s => s == "C:\\gtk\\bin"
      child := fun a b => a ++ "\\" ++ b }

/-- The world produced by accepting the `wWin` candidate. -/
def wWinAfter : World :=
  setEnv wWin "PATH" ("C:\\gtk\\bin" ++ ";" ++ ((wWin.env "PATH").getD ""))

theorem afterAddDll_env (w : World) (p : String) : (afterAddDll w p).env = w.env := by
  by_cases hd : w.hasAddDllDirectory <;>
    by_cases ha : w.addDllOk p = true <;>
      simp [afterAddDll, os_add_dll_directory, hd, ha]

theorem afterAddDll_system (w : World) (p : String) :
    (afterAddDll w p).system = w.system := by
  by_cases hd : w.hasAddDllDirectory <;>
    by_cases ha : w.addDllOk p = true <;>
      simp [afterAddDll, os_add_dll_directory, hd, ha]

theorem afterAddDll_findLibrary (w : World) (p : String) :
    (afterAddDll w p).findLibrary = w.findLibrary := by
  by_cases hd : w.hasAddDllDirectory <;>
    by_cases ha : w.addDllOk p = true <;>
      simp [afterAddDll, os_add_dll_directory, hd, ha]

theorem afterAddDll_loadOutcome (w : World) (p : String) :
    (afterAddDll w p).loadOutcome = w.loadOutcome := by
  by_cases hd : w.hasAddDllDirectory <;>
    by_cases ha : w.addDllOk p = true <;>
      simp [afterAddDll, os_add_dll_directory, hd, ha]

theorem setEnv_env_same (w : World) (n v : String) : (setEnv w n v).env n = some v := by
  simp [setEnv]

theorem setEnv_env_other (w : World) (n v k : String) (h : k ≠ n) :
    (setEnv w n v).env k = w.env k := by
  simp [setEnv, h]

theorem acceptOne_spec (w : World) (p : String) :
    (acceptOne w p).1 = some p ∧
    (acceptOne w p).2.system = w.system ∧
    (acceptOne w p).2.findLibrary = w.findLibrary ∧
    (acceptOne w p).2.loadOutcome = w.loadOutcome ∧
    (∀ k, k ≠ "PATH" → (acceptOne w p).2.env k = w.env k) ∧
    (p ∈ pySplit ((w.env "PATH").getD "") ';' → (acceptOne w p).2.env = w.env) ∧
    (p ∉ pySplit ((w.env "PATH").getD "") ';' →
      (acceptOne w p).2.env "PATH" = some (p ++ ";" ++ (w.env "PATH").getD "")) := by
  have he := afterAddDll_env w p
  have hs := afterAddDll_system w p
  have hf := afterAddDll_findLibrary w p
  have hl := afterAddDll_loadOutcome w p
  by_cases hm : p ∈ pySplit ((w.env "PATH").getD "") ';'
  · have hred : acceptOne w p = (some p, afterAddDll w p) := by
      simp only [acceptOne]
      rw [he, if_pos hm]
    rw [hred]
    exact ⟨rfl, hs, hf, hl, fun k _ => by rw [he], fun _ => he, fun h => absurd hm h⟩
  · have hred : acceptOne w p =
        (some p, setEnv (afterAddDll w p) "PATH" (p ++ ";" ++ (w.env "PATH").getD "")) := by
      simp only [acceptOne]
      rw [he, if_neg hm]
    rw [hred]
    refine ⟨rfl, hs, hf, hl, ?_, fun h => absurd h hm, ?_⟩
    · intro k hk
      rw [setEnv_env_other _ _ _ _ hk, he]
    · intro _
      exact setEnv_env_same _ _ _

theorem acceptCandidates_spec (l : List String) (w : World) :
    ∃ r w', acceptCandidates w l = .ok (r, w') ∧
      w'.system = w.system ∧ w'.findLibrary = w.findLibrary ∧
      w'.loadOutcome = w.loadOutcome ∧
      (∀ k, k ≠ "PATH" → w'.env k = w.env k) ∧
      (r = none → w' = w) ∧
      ∀ p, r = some p →
        (p ∈ pySplit ((w.env "PATH").getD "") ';' → w'.env = w.env) ∧
        (p ∉ pySplit ((w.env "PATH").getD "") ';' →
          w'.env "PATH" = some (p ++ ";" ++ (w.env "PATH").getD "")) := by
  induction l with
  | nil =>
    exact ⟨none, w, rfl, rfl, rfl, rfl, fun _ _ => rfl, fun _ => rfl,
      fun p hp => by cases hp⟩
  | cons path rest ih =>
    by_cases h1 : w.pathExists path = false
    · simpa [acceptCandidates, h1] using ih
    · by_cases h2 : w.hasPangoGlob path = false ∧
          w.pathExists (w.child path "pango-1.0-0.dll") = false
      · simpa [acceptCandidates, h1, h2] using ih
      · obtain ⟨hfst, hs, hf, hl, henv, hmem, hnmem⟩ := acceptOne_spec w path
        refine ⟨(acceptOne w path).1, (acceptOne w path).2, ?_, hs, hf, hl, henv, ?_, ?_⟩
        · simp [acceptCandidates, h1, h2]
        · intro hnone
          rw [hfst] at hnone
          cases hnone
        · intro p hp
          rw [hfst] at hp
          cases hp
          exact ⟨hmem, hnmem⟩

theorem ensure_spec (w : World) :
    ∃ r w', _ensure_windows_gtk_paths w = .ok (r, w') ∧
      w'.system = w.system ∧ w'.findLibrary = w.findLibrary ∧
      w'.loadOutcome = w.loadOutcome ∧
      (∀ k, k ≠ "PATH" → w'.env k = w.env k) ∧
      (r = none → w' = w) ∧
      ∀ p, r = some p →
        (p ∈ pySplit ((w.env "PATH").getD "") ';' → w'.env = w.env) ∧
        (p ∉ pySplit ((w.env "PATH").getD "") ';' →
          w'.env "PATH" = some (p ++ ";" ++ (w.env "PATH").getD "")) := by
  by_cases hW : w.system ≠ "Windows"
  · refine ⟨none, w, ?_, rfl, rfl, rfl, fun _ _ => rfl, fun _ => rfl,
      fun p hp => by cases hp⟩
    simp [_ensure_windows_gtk_paths, hW]
  · rw [_ensure_windows_gtk_paths, if_neg hW]
    exact acceptCandidates_spec _ w

theorem prepare_spec (w : World) :
    ∃ r w', prepare_pango_environment w = .ok (r, w') ∧
      w'.system = w.system ∧ w'.findLibrary = w.findLibrary ∧
      w'.loadOutcome = w.loadOutcome := by
  simp only [prepare_pango_environment]
  split
  · obtain ⟨r, w', h, hs, hf, hl, _⟩ := ensure_spec w
    exact ⟨r, w', h, hs, hf, hl⟩
  · split
    · split
      · exact ⟨none, w, rfl, rfl, rfl, rfl⟩
      · exact ⟨_, _, rfl, rfl, rfl, rfl⟩
    · exact ⟨none, w, rfl, rfl, rfl, rfl⟩

theorem truthyFind_congr {w w' : World} (h : w'.findLibrary = w.findLibrary) :
    truthyFind w' = truthyFind w := by
  funext v
  simp [truthyFind, h]

theorem probeMissing_congr {w w' : World} (h : w'.findLibrary = w.findLibrary)
    (l : List (String × List String)) : probeMissing w' l = probeMissing w l := by
  induction l with
  | nil => rfl
  | cons kv rest ih =>
    obtain ⟨key, variants⟩ := kv
    simp only [probeMissing, truthyFind_congr h, ih]

theorem probe_congr {w w' : World} (hs : w'.system = w.system)
    (hf : w'.findLibrary = w.findLibrary) :
    _probe_native_libs w' = _probe_native_libs w := by
  rw [_probe_native_libs, _probe_native_libs, hs, probeMissing_congr hf]

theorem probeMissing_sublist (w : World) (l : List (String × List String)) :
    List.Sublist (probeMissing w l) (l.map Prod.fst) := by
  induction l with
  | nil => simp [probeMissing]
  | cons kv rest ih =>
    obtain ⟨key, variants⟩ := kv
    by_cases h : variants.any (truthyFind w)
    · simp only [probeMissing, if_pos h, List.map_cons]
      exact ih.cons _
    · simp only [probeMissing, if_neg h, List.map_cons]
      exact ih.cons₂ _

theorem mem_probeMissing (w : World) (l : List (String × List String)) (k : String) :
    k ∈ probeMissing w l ↔
      ∃ vs, (k, vs) ∈ l ∧ vs.any (truthyFind w) = false := by
  induction l with
  | nil => simp [probeMissing]
  | cons kv rest ih =>
    obtain ⟨key, variants⟩ := kv
    by_cases h : variants.any (truthyFind w)
    · rw [probeMissing, if_pos h]
      constructor
      · intro hk
        obtain ⟨vs, hm, hv⟩ := ih.mp hk
        exact ⟨vs, List.mem_cons_of_mem _ hm, hv⟩
      · rintro ⟨vs, hm, hv⟩
        rcases List.mem_cons.mp hm with heq | hm'
        · injection heq with h1 h2
          subst h2
          rw [h] at hv
          cases hv
        · exact ih.mpr ⟨vs, hm', hv⟩
    · rw [probeMissing, if_neg h]
      constructor
      · intro hk
        rcases List.mem_cons.mp hk with rfl | hk'
        · exact ⟨variants, List.mem_cons_self _ _,
            Bool.eq_false_iff.mpr h⟩
        · obtain ⟨vs, hm, hv⟩ := ih.mp hk'
          exact ⟨vs, List.mem_cons_of_mem _ hm, hv⟩
      · rintro ⟨vs, hm, hv⟩
        rcases List.mem_cons.mp hm with heq | hm'
        · injection heq with h1 h2
          subst h1
          exact List.mem_cons_self _ _
        · exact List.mem_cons_of_mem _ (ih.mpr ⟨vs, hm', hv⟩)

theorem probeMissing_nil_of_all (w : World) (l : List (String × List String))
    (h : ∀ kv ∈ l, kv.2.any (truthyFind w) = true) : probeMissing w l = [] := by
  induction l with
  | nil => rfl
  | cons kv rest ih =>
    obtain ⟨key, variants⟩ := kv
    rw [probeMissing, if_pos (h _ (List.mem_cons_self _ _))]
    exact ih fun kv hkv => h kv (List.mem_cons_of_mem _ hkv)

theorem pangoTargets_keys (s : String) :
    (pangoTargets s).map Prod.fst = ["pango", "gobject", "gdk-pixbuf", "cairo"] := by
  rw [pangoTargets]
  split <;> rfl

theorem check_eq_success (w : World) (h : w.loadOutcome = none) :
    check_pango_available w = .ok (true, pangoOkMessage) := by
  obtain ⟨r, w1, hprep, hs, hf, hl⟩ := prepare_spec w
  simp only [check_pango_available, hprep, hl, h]

theorem check_eq_osErr (w : World) (e : String) (h : w.loadOutcome = some (.osError e)) :
    ∃ added w1, prepare_pango_environment w = .ok (added, w1) ∧
      check_pango_available w =
        .ok (handleOSError w.system added (_probe_native_libs w) e) := by
  obtain ⟨r, w1, hprep, hs, hf, hl⟩ := prepare_spec w
  refine ⟨r, w1, hprep, ?_⟩
  simp only [check_pango_available, hprep, hl, h, hs, probe_congr hs hf]

theorem check_eq_impErr (w : World) (m : String)
    (h : w.loadOutcome = some (.importError m)) :
    check_pango_available w = .ok (false, weasyprintMissingMessage) := by
  obtain ⟨r, w1, hprep, hs, hf, hl⟩ := prepare_spec w
  simp only [check_pango_available, hprep, hl, h]

theorem check_eq_otherErr (w : World) (m : String)
    (h : w.loadOutcome = some (.otherExc m)) :
    check_pango_available w = .ok (false, genericFailMessage m) := by
  obtain ⟨r, w1, hprep, hs, hf, hl⟩ := prepare_spec w
  simp only [check_pango_available, hprep, hl, h]

theorem handleOSError_fst (s : String) (a : Option String) (ms : List String)
    (e : String) : (handleOSError s a ms e).1 = false := by
  rw [handleOSError]
  split <;> rfl

theorem handleOSError_eta (s : String) (a : Option String) (ms : List String)
    (e : String) : handleOSError s a ms e = (false, (handleOSError s a ms e).2) := by
  rw [handleOSError]
  split <;> rfl

theorem check_bool (w : World) :
    (check_pango_available w).map Prod.fst = .ok w.loadOutcome.isNone := by
  cases hlo : w.loadOutcome with
  | none => rw [check_eq_success w hlo]; rfl
  | some e =>
    cases e with
    | osError msg =>
      obtain ⟨added, w1, hprep, hcheck⟩ := check_eq_osErr w msg hlo
      rw [hcheck]
      simp [Except.map, handleOSError_fst]
    | importError msg => rw [check_eq_impErr w msg hlo]; rfl
    | otherExc msg => rw [check_eq_otherErr w msg hlo]; rfl

theorem data_infix_mid (p x s : String) : x.data <:+: (p ++ x ++ s).data :=
  ⟨p.data, s.data, by simp [String.data_append]⟩

theorem data_infix_end (p x : String) : x.data <:+: (p ++ x).data :=
  ⟨p.data, [], by simp [String.data_append]⟩

theorem prepare_darwin (w : World) (hD : w.system = "Darwin") :
    prepare_pango_environment w =
      (let current := (w.env "DYLD_LIBRARY_PATH").getD ""
       let added := List.filter
         (fun c => w.pathExists c && !(decide (c ∈ pySplit current ':')))
         ["/opt/homebrew/lib", "/usr/local/lib"]
       if added = [] then .ok (none, w)
       else
         let v := String.intercalate ":" (added ++ (if current ≠ "" then [current] else []))
         .ok (some v, setEnv w "DYLD_LIBRARY_PATH" v)) := by
  have hW : ¬ w.system = "Windows" := by rw [hD]; decide
  rw [prepare_pango_environment, if_neg hW, if_pos hD]

/-- C1: `check_pango_available` never raises: for every world — whatever
the outcome of the guarded load attempt (success, loader `OSError`,
`ImportError`, or any other exception) — it returns an `(available,
message)` pair, and every failing outcome is converted to a result with
`available = false`. -/
theorem C1_check_never_raises (w : World) :
    ∃ b m, check_pango_available w = .ok (b, m) ∧
      (w.loadOutcome ≠ none → b = false) := by
  cases hlo : w.loadOutcome with
  | none =>
    exact ⟨true, pangoOkMessage, check_eq_success w hlo, fun hn => absurd rfl hn⟩
  | some e =>
    cases e with
    | osError msg =>
      obtain ⟨added, w1, hprep, hcheck⟩ := check_eq_osErr w msg hlo
      refine ⟨(handleOSError w.system added (_probe_native_libs w) msg).1,
        (handleOSError w.system added (_probe_native_libs w) msg).2, ?_,
        fun _ => handleOSError_fst _ _ _ _⟩
      rw [hcheck]
    | importError msg =>
      exact ⟨false, weasyprintMissingMessage, check_eq_impErr w msg hlo, fun _ => rfl⟩
    | otherExc msg =>
      exact ⟨false, genericFailMessage msg, check_eq_otherErr w msg hlo, fun _ => rfl⟩

theorem C1_witness :
    ∃ b m, check_pango_available wOther = .ok (b, m) ∧
      (wOther.loadOutcome ≠ none → b = false) :=
  C1_check_never_raises wOther

/-- C2: `check_pango_available` always returns a pair whose boolean is
`true` exactly when the guarded import / version-query succeeds, and the
missing-library list (i.e. the world's `find_library` oracle) never
affects the boolean verdict. -/
theorem C2_verdict_iff_load_success (w : World) :
    (∃ b m, check_pango_available w = .ok (b, m) ∧ (b = true ↔ w.loadOutcome = none)) ∧
    ∀ f, (check_pango_available { w with findLibrary := f }).map Prod.fst =
      (check_pango_available w).map Prod.fst := by
  constructor
  · cases hlo : w.loadOutcome with
    | none =>
      exact ⟨true, pangoOkMessage, check_eq_success w hlo, by simp⟩
    | some e =>
      cases e with
      | osError msg =>
        obtain ⟨added, w1, hprep, hcheck⟩ := check_eq_osErr w msg hlo
        refine ⟨(handleOSError w.system added (_probe_native_libs w) msg).1,
          (handleOSError w.system added (_probe_native_libs w) msg).2, ?_, ?_⟩
        · rw [hcheck]
        · rw [handleOSError_fst]
          simp
      | importError msg =>
        exact ⟨false, weasyprintMissingMessage, check_eq_impErr w msg hlo, by simp⟩
      | otherExc msg =>
        exact ⟨false, genericFailMessage msg, check_eq_otherErr w msg hlo, by simp⟩
  · intro f
    rw [check_bool, check_bool]

/-- C3: `_probe_native_libs` returns the empty list when every one of the
four target keys has a resolving variant, and otherwise returns exactly
the keys whose variants all fail, in the fixed target order, with no
duplicates and no key outside the four. -/
theorem C3_probe_missing_exact (w : World) :
    ((∀ kv ∈ pangoTargets w.system, kv.2.any (truthyFind w) = true) →
      _probe_native_libs w = []) ∧
    (∀ k, k ∈ _probe_native_libs w ↔
      ∃ vs, (k, vs) ∈ pangoTargets w.system ∧ vs.any (truthyFind w) = false) ∧
    List.Sublist (_probe_native_libs w) ["pango", "gobject", "gdk-pixbuf", "cairo"] ∧
    (_probe_native_libs w).Nodup := by
  have hsub : List.Sublist (_probe_native_libs w)
      ["pango", "gobject", "gdk-pixbuf", "cairo"] := by
    have h := probeMissing_sublist w (pangoTargets w.system)
    rwa [pangoTargets_keys] at h
  refine ⟨fun h => probeMissing_nil_of_all _ _ h,
    fun k => mem_probeMissing _ _ _, hsub, ?_⟩
  exact List.Nodup.sublist hsub (by decide)

theorem C3_witness : "gdk-pixbuf" ∈ _probe_native_libs wProbe :=
  ((C3_probe_missing_exact wProbe).2.1 "gdk-pixbuf").mpr
    ⟨["gdk_pixbuf-2.0"], by decide, by decide⟩

/-- C4: on a loader-level `OSError`, `check_pango_available` branches on
the lower-cased error text: if it mentions the pango / gobject / gdk
families the result is the full boxed diagnostic combining the
path-preparation result line, the Windows-only architecture hint, the
missing-library note and the platform-specific install instructions;
otherwise it is the short single-line message containing the raw error
text and the missing-library list. -/
theorem C4_oserror_branching (w : World) (e : String)
    (h : w.loadOutcome = some (.osError e)) :
    ∃ added w1, prepare_pango_environment w = .ok (added, w1) ∧
      (recognizedOSError e = true →
        check_pango_available w =
          .ok (false, fullBoxedMessage w.system added (_probe_native_libs w)) ∧
        (_get_platform_specific_instructions w.system).data <:+:
          (fullBoxedMessage w.system added (_probe_native_libs w)).data ∧
        (windowsHint w.system added).data <:+:
          (fullBoxedMessage w.system added (_probe_native_libs w)).data ∧
        (archNote w.system).data <:+:
          (fullBoxedMessage w.system added (_probe_native_libs w)).data ∧
        (missingNote (_probe_native_libs w)).data <:+:
          (fullBoxedMessage w.system added (_probe_native_libs w)).data) ∧
      (recognizedOSError e = false →
        check_pango_available w =
          .ok (false, shortLoadFailMessage (_probe_native_libs w) e) ∧
        e.data <:+: (shortLoadFailMessage (_probe_native_libs w) e).data ∧
        (_probe_native_libs w ≠ [] →
          (String.intercalate ", " (_probe_native_libs w)).data <:+:
            (shortLoadFailMessage (_probe_native_libs w) e).data)) := by
  obtain ⟨added, w1, hprep, hcheck⟩ := check_eq_osErr w e h
  refine ⟨added, w1, hprep, ?_, ?_⟩
  · intro hrec
    have hmsg : handleOSError w.system added (_probe_native_libs w) e =
        (false, fullBoxedMessage w.system added (_probe_native_libs w)) := by
      rw [handleOSError, if_pos hrec]
    refine ⟨by rw [hcheck, hmsg], ?_, ?_, ?_, ?_⟩
    · exact ⟨(boxedTop ++ windowsHint w.system added ++ archNote w.system ++
          missingNote (_probe_native_libs w)).data, boxedBottom.data,
        by simp [fullBoxedMessage, String.data_append, List.append_assoc]⟩
    · exact ⟨boxedTop.data, (archNote w.system).data ++
          (missingNote (_probe_native_libs w)).data ++
          (_get_platform_specific_instructions w.system).data ++ boxedBottom.data,
        by simp [fullBoxedMessage, String.data_append, List.append_assoc]⟩
    · exact ⟨(boxedTop ++ windowsHint w.system added).data,
        (missingNote (_probe_native_libs w)).data ++
          (_get_platform_specific_instructions w.system).data ++ boxedBottom.data,
        by simp [fullBoxedMessage, String.data_append, List.append_assoc]⟩
    · exact ⟨(boxedTop ++ windowsHint w.system added ++ archNote w.system).data,
        (_get_platform_specific_instructions w.system).data ++ boxedBottom.data,
        by simp [fullBoxedMessage, String.data_append, List.append_assoc]⟩
  · intro hrec
    have hmsg : handleOSError w.system added (_probe_native_libs w) e =
        (false, shortLoadFailMessage (_probe_native_libs w) e) := by
      rw [handleOSError, if_neg (by simp [hrec])]
    refine ⟨by rw [hcheck, hmsg], ?_, ?_⟩
    · exact ⟨"⚠ PDF 依赖加载失败: ".data,
        ("；缺失/未识别: " ++
          (if _probe_native_libs w = [] then "未知"
           else String.intercalate ", " (_probe_native_libs w))).data,
        by simp [shortLoadFailMessage, String.data_append, List.append_assoc]⟩
    · intro hne
      refine ⟨("⚠ PDF 依赖加载失败: " ++ e ++ "；缺失/未识别: ").data, [], ?_⟩
      simp [shortLoadFailMessage, String.data_append, List.append_assoc, if_neg hne]

theorem C4_witness :
    wOsErr.loadOutcome = some (.osError "cannot load library pango-1.0-0") ∧
    (∃ added w1, prepare_pango_environment wOsErr = .ok (added, w1) ∧
      (recognizedOSError "cannot load library pango-1.0-0" = true →
        check_pango_available wOsErr =
          .ok (false, fullBoxedMessage wOsErr.system added
            (_probe_native_libs wOsErr)) ∧
        (_get_platform_specific_instructions wOsErr.system).data <:+:
          (fullBoxedMessage wOsErr.system added (_probe_native_libs wOsErr)).data ∧
        (windowsHint wOsErr.system added).data <:+:
          (fullBoxedMessage wOsErr.system added (_probe_native_libs wOsErr)).data ∧
        (archNote wOsErr.system).data <:+:
          (fullBoxedMessage wOsErr.system added (_probe_native_libs wOsErr)).data ∧
        (missingNote (_probe_native_libs wOsErr)).data <:+:
          (fullBoxedMessage wOsErr.system added (_probe_native_libs wOsErr)).data) ∧
      (recognizedOSError "cannot load library pango-1.0-0" = false →
        check_pango_available wOsErr =
          .ok (false, shortLoadFailMessage (_probe_native_libs wOsErr)
            "cannot load library pango-1.0-0") ∧
        ("cannot load library pango-1.0-0" : String).data <:+:
          (shortLoadFailMessage (_probe_native_libs wOsErr)
            "cannot load library pango-1.0-0").data ∧
        (_probe_native_libs wOsErr ≠ [] →
          (String.intercalate ", " (_probe_native_libs wOsErr)).data <:+:
            (shortLoadFailMessage (_probe_native_libs wOsErr)
              "cannot load library pango-1.0-0").data))) :=
  ⟨rfl, C4_oserror_branching wOsErr "cannot load library pango-1.0-0" rfl⟩

/-- C6: when the import of the rendering binding itself fails with an
`ImportError`, `check_pango_available` returns `(false, message)` where
the message contains the `pip install` instruction text. -/
theorem C6_importerror_pip_message (w : World) (m : String)
    (h : w.loadOutcome = some (.importError m)) :
    check_pango_available w = .ok (false, weasyprintMissingMessage) ∧
    "pip install".data <:+: weasyprintMissingMessage.data :=
  ⟨check_eq_impErr w m h, by decide⟩

theorem C6_witness :
    check_pango_available wImpErr = .ok (false, weasyprintMissingMessage) ∧
    "pip install".data <:+: weasyprintMissingMessage.data :=
  C6_importerror_pip_message wImpErr "No module named weasyprint" rfl

/-- C7: for every platform and filesystem state, `prepare_pango_environment`
and `_ensure_windows_gtk_paths` return normally (an `.ok` result) — no
exception escapes either function. -/
theorem C7_path_preparer_total (w : World) :
    (∃ r w', prepare_pango_environment w = .ok (r, w')) ∧
    (∃ r w', _ensure_windows_gtk_paths w = .ok (r, w')) := by
  obtain ⟨r, w', h, _⟩ := prepare_spec w
  obtain ⟨r2, w2, h2, _⟩ := ensure_spec w
  exact ⟨⟨r, w', h⟩, ⟨r2, w2, h2⟩⟩

/-- C8: on every platform other than Windows and macOS,
`prepare_pango_environment` is a no-op: it returns `None` and the world
— environment variables and loader search configuration included — is
returned unchanged. -/
theorem C8_other_platforms_noop (w : World) (h1 : w.system ≠ "Windows")
    (h2 : w.system ≠ "Darwin") :
    prepare_pango_environment w = .ok (none, w) := by
  rw [prepare_pango_environment, if_neg h1, if_neg h2]

theorem C8_witness : prepare_pango_environment baseWorld = .ok (none, baseWorld) :=
  C8_other_platforms_noop baseWorld (by decide) (by decide)

/-- C5: on macOS, when `/opt/homebrew/lib` exists and is not among the
colon-separated entries of the current `DYLD_LIBRARY_PATH`,
`prepare_pango_environment` adds it to `DYLD_LIBRARY_PATH` — the new
combined value is the colon-join of a list headed by
`/opt/homebrew/lib` — and returns exactly that updated value. -/
theorem C5_darwin_homebrew_added (w : World) (hD : w.system = "Darwin")
    (hex : w.pathExists "/opt/homebrew/lib" = true)
    (hnm : "/opt/homebrew/lib" ∉ pySplit ((w.env "DYLD_LIBRARY_PATH").getD "") ':') :
    ∃ v t, v = String.intercalate ":" ("/opt/homebrew/lib" :: t) ∧
      prepare_pango_environment w = .ok (some v, setEnv w "DYLD_LIBRARY_PATH" v) ∧
      (setEnv w "DYLD_LIBRARY_PATH" v).env "DYLD_LIBRARY_PATH" = some v := by
  have hd1 : decide ("/opt/homebrew/lib" ∈
      pySplit ((w.env "DYLD_LIBRARY_PATH").getD "") ':') = false := decide_eq_false hnm
  rw [prepare_darwin w hD]
  simp only [List.filter_cons, List.filter_nil, hex, hd1, Bool.not_false, Bool.true_and,
    Bool.and_true, if_true, List.cons_append, reduceCtorEq, if_false, ite_false,
    ite_true, List.cons_ne_nil, if_neg, ne_eq, not_false_eq_true]
  exact ⟨_, _, rfl, rfl, setEnv_env_same _ _ _⟩

theorem C5_witness :
    ∃ v t, v = String.intercalate ":" ("/opt/homebrew/lib" :: t) ∧
      prepare_pango_environment wDarwin =
        .ok (some v, setEnv wDarwin "DYLD_LIBRARY_PATH" v) ∧
      (setEnv wDarwin "DYLD_LIBRARY_PATH" v).env "DYLD_LIBRARY_PATH" = some v :=
  C5_darwin_homebrew_added wDarwin rfl (by decide) (by decide)

theorem splitCharAux_append_sep (sep : Char) (xs : List Char) (h : sep ∉ xs) :
    ∀ acc rest, splitCharAux sep (xs ++ sep :: rest) acc =
      (acc.reverse ++ xs) :: splitCharAux sep rest [] := by
  induction xs with
  | nil =>
    intro acc rest
    simp [splitCharAux]
  | cons c cs ih =>
    intro acc rest
    have hc : ¬ c = sep := fun hh => h (hh ▸ List.mem_cons_self c cs)
    have hcs : sep ∉ cs := fun hh => h (List.mem_cons_of_mem _ hh)
    simp [splitCharAux, hc, ih hcs]

theorem pySplit_prepend (p cur : String) (h : (';' : Char) ∉ p.data) :
    pySplit (p ++ ";" ++ cur) ';' = p :: pySplit cur ';' := by
  obtain ⟨pl⟩ := p
  have hd : ((⟨pl⟩ : String) ++ ";" ++ cur).data = pl ++ ';' :: cur.data := by
    simp [String.data_append]
  rw [pySplit, hd, splitCharAux_append_sep ';' pl h [] cur.data]
  simp [pySplit]

/-- C9: on Windows, when `_ensure_windows_gtk_paths` accepts a candidate
path, it prepends it to `PATH` only when its string form is not already
one of the `";"`-separated entries; if it is already an entry, `PATH` is
left unchanged while the path is still returned, and a freshly prepended
`";"`-free path occurs exactly once among the new entries — the call
never introduces a duplicate entry for the accepted path. -/
theorem C9_no_duplicate_path_entry (w : World) (p : String) (w' : World)
    (hW : w.system = "Windows")
    (h : _ensure_windows_gtk_paths w = .ok (some p, w')) :
    (p ∈ pySplit ((w.env "PATH").getD "") ';' →
      w'.env "PATH" = w.env "PATH") ∧
    (p ∉ pySplit ((w.env "PATH").getD "") ';' →
      w'.env "PATH" = some (p ++ ";" ++ (w.env "PATH").getD "") ∧
      ((';' : Char) ∉ p.data →
        List.count p (pySplit ((w'.env "PATH").getD "") ';') = 1)) := by
  obtain ⟨r, w2, h2, hs, hf, hl, henvk, hnone, hsome⟩ := ensure_spec w
  rw [h2] at h
  simp only [Except.ok.injEq, Prod.mk.injEq] at h
  obtain ⟨hr, hw⟩ := h
  subst hw
  obtain ⟨hmem, hnmem⟩ := hsome p hr
  constructor
  · intro hp
    rw [hmem hp]
  · intro hp
    have hP := hnmem hp
    refine ⟨hP, ?_⟩
    intro hsemi
    rw [hP]
    simp only [Option.getD_some]
    rw [pySplit_prepend p _ hsemi, List.count_cons_self,
      List.count_eq_zero.mpr hp]

theorem C9_witness :
    wWin.system = "Windows" ∧
    _ensure_windows_gtk_paths wWin = .ok (some "C:\\gtk\\bin", wWinAfter) ∧
    (("C:\\gtk\\bin" ∈ pySplit ((wWin.env "PATH").getD "") ';' →
        wWinAfter.env "PATH" = wWin.env "PATH") ∧
     ("C:\\gtk\\bin" ∉ pySplit ((wWin.env "PATH").getD "") ';' →
        wWinAfter.env "PATH" =
          some ("C:\\gtk\\bin" ++ ";" ++ ((wWin.env "PATH").getD "")) ∧
        ((';' : Char) ∉ ("C:\\gtk\\bin" : String).data →
          List.count "C:\\gtk\\bin"
            (pySplit ((wWinAfter.env "PATH").getD "") ';') = 1))) :=
  ⟨rfl, rfl, C9_no_duplicate_path_entry wWin "C:\\gtk\\bin" wWinAfter rfl rfl⟩

/-- C10: on macOS with `DYLD_LIBRARY_PATH` unset or empty and at least
one candidate directory present, the value written and returned is
exactly the colon-join of the existing candidates (`/opt/homebrew/lib`
before `/usr/local/lib`), with no empty entry and no trailing colon;
the empty prior value is not appended. -/
theorem C10_darwin_fresh_value (w : World) (hD : w.system = "Darwin")
    (hcur : w.env "DYLD_LIBRARY_PATH" = none ∨ w.env "DYLD_LIBRARY_PATH" = some "")
    (hex : w.pathExists "/opt/homebrew/lib" = true ∨
      w.pathExists "/usr/local/lib" = true) :
    ∃ v, prepare_pango_environment w = .ok (some v, setEnv w "DYLD_LIBRARY_PATH" v) ∧
      (setEnv w "DYLD_LIBRARY_PATH" v).env "DYLD_LIBRARY_PATH" = some v ∧
      v = String.intercalate ":"
        (List.filter (fun c => w.pathExists c) ["/opt/homebrew/lib", "/usr/local/lib"]) ∧
      "" ∉ pySplit v ':' ∧ v.data.getLast? ≠ some ':' := by
  have hc : (w.env "DYLD_LIBRARY_PATH").getD "" = "" := by
    rcases hcur with hh | hh <;> rw [hh] <;> rfl
  have hm1 : decide ("/opt/homebrew/lib" ∈ pySplit "" ':') = false := by decide
  have hm2 : decide ("/usr/local/lib" ∈ pySplit "" ':') = false := by decide
  rw [prepare_darwin w hD, hc]
  cases hhb : w.pathExists "/opt/homebrew/lib" with
  | true =>
    cases hul : w.pathExists "/usr/local/lib" with
    | true =>
      refine ⟨String.intercalate ":" (List.filter (fun c => w.pathExists c)
        ["/opt/homebrew/lib", "/usr/local/lib"]), ?_, setEnv_env_same _ _ _, rfl, ?_, ?_⟩
      · simp [List.filter_cons, List.filter_nil, hhb, hul, hm1, hm2]
      · simp only [List.filter_cons, List.filter_nil, hhb, hul, if_true, reduceIte]
        decide
      · simp only [List.filter_cons, List.filter_nil, hhb, hul, if_true, reduceIte]
        decide
    | false =>
      refine ⟨String.intercalate ":" (List.filter (fun c => w.pathExists c)
        ["/opt/homebrew/lib", "/usr/local/lib"]), ?_, setEnv_env_same _ _ _, rfl, ?_, ?_⟩
      · simp [List.filter_cons, List.filter_nil, hhb, hul, hm1, hm2]
      · simp only [List.filter_cons, List.filter_nil, hhb, hul, if_true, reduceIte]
        decide
      · simp only [List.filter_cons, List.filter_nil, hhb, hul, if_true, reduceIte]
        decide
  | false =>
    cases hul : w.pathExists "/usr/local/lib" with
    | true =>
      refine ⟨String.intercalate ":" (List.filter (fun c => w.pathExists c)
        ["/opt/homebrew/lib", "/usr/local/lib"]), ?_, setEnv_env_same _ _ _, rfl, ?_, ?_⟩
      · simp [List.filter_cons, List.filter_nil, hhb, hul, hm1, hm2]
      · simp only [List.filter_cons, List.filter_nil, hhb, hul, if_true, reduceIte]
        decide
      · simp only [List.filter_cons, List.filter_nil, hhb, hul, if_true, reduceIte]
        decide
    | false =>
      rcases hex with hh | hh
      · rw [hhb] at hh
        cases hh
      · rw [hul] at hh
        cases hh

theorem C10_witness :
    wDarwinEmptyEnv.env "DYLD_LIBRARY_PATH" = none ∧
    (∃ v, prepare_pango_environment wDarwinEmptyEnv =
        .ok (some v, setEnv wDarwinEmptyEnv "DYLD_LIBRARY_PATH" v) ∧
      (setEnv wDarwinEmptyEnv "DYLD_LIBRARY_PATH" v).env "DYLD_LIBRARY_PATH" = some v ∧
      v = String.intercalate ":"
        (List.filter (fun c => wDarwinEmptyEnv.pathExists c)
          ["/opt/homebrew/lib", "/usr/local/lib"]) ∧
      "" ∉ pySplit v ':' ∧ v.data.getLast? ≠ some ':') :=
  ⟨rfl, C10_darwin_fresh_value wDarwinEmptyEnv rfl (Or.inl rfl) (Or.inl (by decide))⟩
